import Mathlib

/-!
Verification development for the voxel-reader database migration scripts.

Shallow embedding of the mapping/transform logic of the per-table migration
scripts (Cases, Invoices, Users, Clinics orchestrators).  Database values are
modelled as plain Lean data: SQL NULL becomes `Option`, MySQL `decimal`
columns become `ℚ`, timestamps are opaque `Nat`s, strings stay `String`.
The lookup dictionaries become in-memory association lists, exactly the
in-memory mapping dictionaries the scripts themselves build.  External
effects that can fail (an INSERT rejected by the destination database) are
modelled by an explicit per-row failure flag.
-/

namespace Migration

/-! ## Python string primitives

ASCII implementations of the Python string methods the scripts use
(`str.lower`, `str.strip`, `str.split()` with no argument, `' '.join`),
written over the character list of a `String`. -/

/-- Python `s.lower()` (and SQL `LOWER`). -/
def pyLower (s : String) : String := ⟨s.data.map Char.toLower⟩

/-- Python `s.strip()` (and SQL `TRIM`): drop leading and trailing whitespace. -/
def pyStrip (s : String) : String :=
  ⟨((s.data.dropWhile Char.isWhitespace).reverse.dropWhile Char.isWhitespace).reverse⟩

/-- Word accumulator for `pyWords`: words in reverse order, each word forward. -/
def pyWordsAux (l : List Char) : List (List Char) :=
  l.foldl (fun acc c =>
    if c.isWhitespace then
      match acc with
      | [] => []
      | w :: ws => if w.isEmpty then acc else [] :: w :: ws
    else
      match acc with
      | [] => [[c]]
      | w :: ws => (w ++ [c]) :: ws) []

/-- Python `s.split()` with no argument: split on whitespace runs, no empty
words. -/
def pyWords (s : String) : List String :=
  (((pyWordsAux s.data).filter (fun w => !w.isEmpty)).reverse).map (fun w => ⟨w⟩)

/-- Python `' '.join(words)`. -/
def pyJoinSpace : List String → String
  | [] => ""
  | w :: ws => ws.foldl (fun acc t => acc ++ " " ++ t) w

/-! ## Cases/1_tbl_cases__Cases.py: status normalisation -/

/-- Python coercion `1 if x == 1 else 0` from `map_status_value`:
any value other than the integer 1 (including NULL) counts as 0. -/
def coerceFlag (x : Option Int) : Int :=
  if x = some 1 then 1 else 0

/-- `map_status_value(draft_status, submitted_status, completed_status, archived_status)`
from `Cases/1_tbl_cases__Cases.py` (lines 87-124), branch for branch, including
the default-fallback chain at the end. -/
def map_status_value (draft_status submitted_status completed_status archived_status : Option Int) :
    String :=
  let draft := coerceFlag draft_status
  let submitted := coerceFlag submitted_status
  let completed := coerceFlag completed_status
  let archived := coerceFlag archived_status
  if draft = 1 ∧ submitted = 0 ∧ completed = 0 ∧ archived = 0 then "CREATED"
  else if submitted = 1 ∧ completed = 0 ∧ archived = 0 then "SUBMITED"
  else if completed = 1 ∧ archived = 0 then "COMPLETED"
  else if archived = 1 then "ARCHIVED"
  else if completed = 1 then "COMPLETED"
  else if archived = 1 then "ARCHIVED"
  else if submitted = 1 then "SUBMITED"
  else "DRAFT"

/-- The spec's description of the normaliser: the highest-priority set flag
wins, in fixed precedence order archived > completed > submitted > draft,
with draft-only as the base case and all-flags-clear defaulting to the
lowest stage.  Stated for comparison with `map_status_value`. -/
def statusByPrecedence (draft submitted completed archived : Option Int) : String :=
  if coerceFlag archived = 1 then "ARCHIVED"
  else if coerceFlag completed = 1 then "COMPLETED"
  else if coerceFlag submitted = 1 then "SUBMITED"
  else if coerceFlag draft = 1 then "CREATED"
  else "DRAFT"

/-! ## Cases/1_tbl_cases__Cases.py: review-status normalisation -/

/-- The fixed dictionary of `map_review_status_value` (lines 134-140). -/
def review_status_mapping : List (String × String) :=
  [("submitted", "SUBMITED"), ("assigned", "ASSIGNED"), ("reviewed", "RESOLVED"),
   ("accepted", "ACCEPTED"), ("rejected", "REJECTED")]

/-- `map_review_status_value(mysql_review_status)` (lines 126-141): NULL maps to
NULL, otherwise the value is cast to a string, lower-cased, looked up in the
fixed dictionary, and defaults to "SUBMITED" on a miss. -/
def map_review_status_value (mysql_review_status : Option String) : Option String :=
  match mysql_review_status with
  | none => none
  | some v => some ((review_status_mapping.lookup (pyLower v)).getD "SUBMITED")

/-! ## Cases/4_tbl_cases__ClinicPatient_CasePatients.py: gender normalisation -/

/-- The fixed dictionary of `convert_gender` (lines 265-272). -/
def gender_mapping : List (String × String) :=
  [("male", "MALE"), ("m", "MALE"), ("female", "FEMALE"), ("f", "FEMALE"),
   ("other", "OTHER"), ("o", "OTHER")]

/-- `convert_gender(mysql_gender)` (lines 257-274): a falsy input (NULL or the
empty string) maps to "OTHER"; otherwise the input is lower-cased, stripped,
looked up in the fixed dictionary, and defaults to "OTHER" on a miss. -/
def convert_gender (mysql_gender : Option String) : String :=
  match mysql_gender with
  | none => "OTHER"
  | some s =>
    if s = "" then "OTHER"
    else (gender_mapping.lookup (pyStrip (pyLower s))).getD "OTHER"

/-! ## Invoices/4 (InvoiceCaseServices): amount clamping

`validate_and_sanitize_amount` works on Python floats; the model uses exact
rationals, so the NaN/±infinity guard of the Python (which can only fire for
non-finite floats) has no inhabitant here and `is_valid` is always true.
Python's `round(x, 2)` rounds half to even; `roundHalfEven` mirrors that. -/

def MAX_AMOUNT : ℚ := 99999999.99

def MIN_AMOUNT : ℚ := -99999999.99

/-- Round to the nearest integer, ties to the even integer (Python `round`). -/
def roundHalfEven (q : ℚ) : ℤ :=
  let n := ⌊q⌋
  let r := q - n
  if r < 1/2 then n
  else if 1/2 < r then n + 1
  else if n % 2 = 0 then n else n + 1

/-- `round(amount_float, 2)`: round to two decimal places, ties to even. -/
def roundTo2 (q : ℚ) : ℚ :=
  (roundHalfEven (q * 100) : ℚ) / 100

/-- Result triple of `validate_and_sanitize_amount`:
`(sanitized_amount, is_valid, warning_message)`; the warning message is
modelled by whether one was produced. -/
structure AmountResult where
  sanitized : Option ℚ
  is_valid : Bool
  warned : Bool
deriving DecidableEq, Repr

/-- `validate_and_sanitize_amount(amount, ...)` from
`Invoices/4_tbl_client_invoice_details_&_tbl_client_invoice_reports__InvoiceCaseServices.py`
(lines 108-147). -/
def validate_and_sanitize_amount (amount : Option ℚ) : AmountResult :=
  match amount with
  | none => ⟨none, true, false⟩
  | some a =>
    if MAX_AMOUNT < a then ⟨some MAX_AMOUNT, true, true⟩
    else if a < MIN_AMOUNT then ⟨some MIN_AMOUNT, true, true⟩
    else ⟨some (roundTo2 a), true, false⟩

/-! ## Cases/1_tbl_cases__Cases.py: the per-row transform of `migrate_cases` -/

/-- `dict.get` through an association list keyed by a possibly-NULL value. -/
def lookupOpt (m : List (Int × Int)) (k : Option Int) : Option Int :=
  match k with
  | none => none
  | some k => m.lookup k

/-- `x in valid_ids` for a possibly-NULL x. -/
def optMem (k : Option Int) (l : List Int) : Bool :=
  match k with
  | none => false
  | some k => l.contains k

/-- `' '.join(reffering_doctor.strip().split()).lower()` (line 393):
collapse whitespace runs, join with single spaces, lower-case. -/
def normalize_name (s : String) : String :=
  pyLower (pyJoinSpace (pyWords (pyStrip s)))

/-- Lines 424-429: `services_total_cost` becomes `Decimal('1.00')` when NULL
or not strictly positive, and is carried over otherwise. -/
def toTotalServiceCost (services_total_cost : Option ℚ) : ℚ :=
  match services_total_cost with
  | none => 1
  | some v => if v ≤ 0 then 1 else v

/-- Lines 442-456: `isDeleted` from the legacy `status` column
(1 ↦ false, 2 ↦ true, anything else including NULL ↦ false). -/
def toIsDeleted (old_status : Option Int) : Bool :=
  let status_int := match old_status with | some n => n | none => 0
  if status_int = 1 then false
  else if status_int = 2 then true
  else false

/-- One row of the MySQL `tbl_cases` query (lines 301-327). -/
structure TblCasesRow where
  cases_id : Int
  voxel_cases_id : Option Int
  doctor_id : Option Int
  next_appointment_date : Option Nat
  scan_date : Option Nat
  services_total_cost : Option ℚ
  status : Option Int
  draft_status : Option Int
  submitted_status : Option Int
  completed_status : Option Int
  archived_status : Option Int
  assigned_radiologist_id : Option Int
  revenue_amount : Option ℚ
  review_status : Option String
  case_result_summary : Option String
  internal_comments : Option String
  add_time : Option Nat
  update_time : Option Nat
  submitted_date : Option Nat
  completed_date : Option Nat
  added_by : Option Int
  reffering_doctor : Option String
deriving DecidableEq, Repr

/-- The tuple bound to the INSERT into "Cases" (lines 344-369 and 493-515). -/
structure CasesInsertValues where
  cId : Int
  voxelCaseId : Option Int
  doctorUserId : Option Int
  radioLogistUserId : Option Int
  clinicLocationId : Option Int
  scannedAt : Option Nat
  status : String
  reviewStatus : Option String
  totalServiceCost : ℚ
  createdByUserId : Option Int
  isDeleted : Bool
  createdAt : Nat
  updatedAt : Option Nat
  nextAppointmentAt : Option Nat
  revenueAmount : Option ℚ
  internalComments : Option String
  caseResultSummary : Option String
  submittedAt : Option Nat
  completedAt : Option Nat
  invoiceId : Option Int
deriving DecidableEq, Repr

/-- Lines 408-515 of `migrate_cases`: the field mapping once a doctor uId has
been resolved (`mapped_uid` flows into both doctorUserId and createdByUserId). -/
def build_case_values (olduserid_to_uid : List (Int × Int))
    (case_invoice_mapping clinic_location_mapping : List (Int × Int))
    (now : Nat) (row : TblCasesRow) (mapped_uid : Int) : CasesInsertValues :=
  { cId := row.cases_id
    voxelCaseId := row.voxel_cases_id
    doctorUserId := some mapped_uid
    radioLogistUserId := lookupOpt olduserid_to_uid row.assigned_radiologist_id
    clinicLocationId := lookupOpt clinic_location_mapping row.doctor_id
    scannedAt := row.scan_date
    status := map_status_value row.draft_status row.submitted_status
      row.completed_status row.archived_status
    reviewStatus := map_review_status_value row.review_status
    totalServiceCost := toTotalServiceCost row.services_total_cost
    createdByUserId := some mapped_uid
    isDeleted := toIsDeleted row.status
    createdAt := row.add_time.getD now
    updatedAt := row.update_time
    nextAppointmentAt := row.next_appointment_date
    revenueAmount := row.revenue_amount
    internalComments := row.internal_comments
    caseResultSummary := row.case_result_summary
    submittedAt := row.submitted_date
    completedAt := row.completed_date
    invoiceId := case_invoice_mapping.lookup row.cases_id }

/-- Lines 377-515 of `migrate_cases`, one iteration: doctor validity check,
id-chain lookup, normalized-name fallback, or skip.  Returns the values row
to insert (or none) and the increment of `skipped_invalid_doctor_count`. -/
def process_case_row (valid_doctor_ids : List Int)
    (olduserid_to_uid : List (Int × Int)) (name_to_uid : List (String × Int))
    (case_invoice_mapping clinic_location_mapping : List (Int × Int))
    (now : Nat) (row : TblCasesRow) : Option CasesInsertValues × Nat :=
  if optMem row.doctor_id valid_doctor_ids = false then (none, 1)
  else
    match lookupOpt olduserid_to_uid row.doctor_id with
    | some uid =>
      (some (build_case_values olduserid_to_uid case_invoice_mapping
        clinic_location_mapping now row uid), 0)
    | none =>
      match row.reffering_doctor with
      | some rd =>
        if rd = "" then (none, 1)
        else
          match name_to_uid.lookup (normalize_name rd) with
          | some fallback_uid =>
            (some (build_case_values olduserid_to_uid case_invoice_mapping
              clinic_location_mapping now row fallback_uid), 0)
          | none => (none, 1)
      | none => (none, 1)

/-! ## Commit/rollback skeleton of the row loops

The try/except/commit skeleton of `migrate_cases` (Cases/1, lines 517-540)
and of `migrate_data` in Invoices/5 (lines 296-359).  A row is abstracted to
an id together with its fate: `skip` (a `continue` before the INSERT), `ok`
(INSERT succeeded), `fail` (an exception reached the except-branch). -/

inductive RowFate
  | skip
  | ok
  | fail
deriving DecidableEq, Repr

structure BatchLoopState where
  migrated : Nat
  errors : Nat
  skipped : Nat
  commitsInLoop : Nat
  pending : List Nat
  committed : List Nat
deriving DecidableEq, Repr

def initBatchLoopState : BatchLoopState := ⟨0, 0, 0, 0, [], []⟩

/-- One iteration of the Cases/1 row loop (lines 377-537): on success the row
joins the open transaction and `migrated_count` ticks, with an explicit commit
every time `migrated_count % 100 == 0`; on an exception the open transaction
is rolled back and the loop continues. -/
def casesLoopStep (s : BatchLoopState) (row : Nat × RowFate) : BatchLoopState :=
  match row.2 with
  | .skip => { s with skipped := s.skipped + 1 }
  | .ok =>
    let pending := s.pending ++ [row.1]
    let migrated := s.migrated + 1
    if migrated % 100 = 0 then
      { s with migrated := migrated, pending := [],
               committed := s.committed ++ pending,
               commitsInLoop := s.commitsInLoop + 1 }
    else { s with migrated := migrated, pending := pending }
  | .fail => { s with errors := s.errors + 1, pending := [] }

/-- The Cases/1 loop over all rows followed by the final commit (line 540). -/
def migrate_cases_loop (rows : List (Nat × RowFate)) : BatchLoopState :=
  let final := rows.foldl casesLoopStep initBatchLoopState
  { final with committed := final.committed ++ final.pending, pending := [] }

/-- One iteration of the Invoices/5 row loop (lines 296-358): same skeleton as
Cases/1 (commit every 100 successful migrations, rollback and continue on a
per-row exception). -/
def inv5LoopStep (s : BatchLoopState) (row : Nat × RowFate) : BatchLoopState :=
  match row.2 with
  | .skip => { s with skipped := s.skipped + 1 }
  | .ok =>
    let pending := s.pending ++ [row.1]
    let migrated := s.migrated + 1
    if migrated % 100 = 0 then
      { s with migrated := migrated, pending := [],
               committed := s.committed ++ pending,
               commitsInLoop := s.commitsInLoop + 1 }
    else { s with migrated := migrated, pending := pending }
  | .fail => { s with errors := s.errors + 1, pending := [] }

/-- The Invoices/5 loop over all rows followed by the final commit (line 359). -/
def migrate_data_inv5_loop (rows : List (Nat × RowFate)) : BatchLoopState :=
  let final := rows.foldl inv5LoopStep initBatchLoopState
  { final with committed := final.committed ++ final.pending, pending := [] }

/-! ## Invoices/4 (InvoiceCaseServices): `migrate_data` -/

/-- One joined source row of `get_source_data` (lines 89-99), plus the
environment fact of whether its final INSERT statement raises. -/
structure Record4 where
  client_invoice_id : Int
  case_id : Int
  total_amount : Option ℚ
  case_date : Option Nat
  rush_fee : Option ℚ
  insert_fails : Bool
deriving DecidableEq, Repr

/-- The `MigrationError` cases that `insert_invoice_case_service` can raise,
distinguished the way the caller's string matching distinguishes them
("not found in" / "Invalid amount" / anything else). -/
inductive Mig4Error
  | fkInvoice
  | fkCase
  | invalidAmount
  | insertFailed
deriving DecidableEq, Repr

/-- Python `rush_fee or 0.00` (a falsy fee, NULL or 0, becomes 0.00). -/
def pyOrZero (q : Option ℚ) : ℚ :=
  match q with
  | none => 0
  | some v => if v = 0 then 0 else v

/-- One row of the destination "InvoiceCaseServices" table as inserted by
lines 195-211 (deletedAt and updatedAt are inserted as NULL and omitted). -/
structure Ics where
  invoiceId : Int
  caseId : Int
  amount : Option ℚ
  rushFee : ℚ
  createdAt : Option Nat
  isDeleted : Bool
deriving DecidableEq, Repr

/-- `validate_foreign_keys(postgres_cursor, invoice_id, case_id)` (lines
52-77): existence checks against the destination Invoices and Cases tables,
modelled by their key sets.  Returns `(invoice_exists, case_exists)`. -/
def validate_foreign_keys (invoices cases : List Int) (invoice_id case_id : Int) :
    Bool × Bool :=
  (invoices.contains invoice_id, cases.contains case_id)

/-- `insert_invoice_case_service` (lines 149-219): FK validation, amount and
rush-fee sanitisation, then the INSERT. -/
def insert_invoice_case_service (invoices cases : List Int) (r : Record4) :
    Except Mig4Error Ics :=
  let fk := validate_foreign_keys invoices cases r.client_invoice_id r.case_id
  if fk.1 = false then .error .fkInvoice
  else if fk.2 = false then .error .fkCase
  else
    let a := validate_and_sanitize_amount r.total_amount
    if a.is_valid = false then .error .invalidAmount
    else
      let rf := validate_and_sanitize_amount (some (pyOrZero r.rush_fee))
      let rushFee := if rf.is_valid = false then 0 else rf.sanitized.getD 0
      if r.insert_fails then .error .insertFailed
      else .ok ⟨r.client_invoice_id, r.case_id, a.sanitized, rushFee, r.case_date, false⟩

/-- Run state of `migrate_data` in Invoices/4: destination key sets, rows
inserted in the (single) open transaction, rows made durable by a commit,
the four counters, and how many commits happened inside the row loop. -/
structure Inv4State where
  invoices : List Int
  casesTbl : List Int
  inserted : List Ics
  committed : List Ics
  successful : Nat
  failed : Nat
  dataQuality : Nat
  fkViolations : Nat
  commitsInLoop : Nat
deriving DecidableEq, Repr

/-- One iteration of the `migrate_data` row loop (lines 272-308): a raised
`MigrationError` is classified by its message into the foreign-key /
data-quality / failed counters and the loop continues; there is no rollback
and no commit inside the loop. -/
def inv4Step (s : Inv4State) (r : Record4) : Inv4State :=
  match insert_invoice_case_service s.invoices s.casesTbl r with
  | .ok v => { s with inserted := s.inserted ++ [v], successful := s.successful + 1 }
  | .error .fkInvoice => { s with fkViolations := s.fkViolations + 1 }
  | .error .fkCase => { s with fkViolations := s.fkViolations + 1 }
  | .error .invalidAmount => { s with dataQuality := s.dataQuality + 1 }
  | .error .insertFailed => { s with failed := s.failed + 1 }

def inv4InitState (invoices cases : List Int) : Inv4State :=
  ⟨invoices, cases, [], [], 0, 0, 0, 0, 0⟩

/-- `migrate_data` of Invoices/4 (lines 221-311): the whole row loop followed
by the one commit after it. -/
def migrate_data_inv4 (invoices cases : List Int) (rows : List Record4) : Inv4State :=
  let final := rows.foldl inv4Step (inv4InitState invoices cases)
  { final with committed := final.inserted }

/-! ## Orchestrators -/

/-- `main` of `migrate_all.py` (lines 81-97): run the hand-listed scripts in
order; a script is abstracted to whether it exits with code 0.  On the first
failure the loop prints and calls `sys.exit(1)`.  Returns
`(scripts started, process exit code)`. -/
def migrate_all_main : List Bool → Nat × Nat
  | [] => (0, 0)
  | ok :: rest =>
    if ok then
      let r := migrate_all_main rest
      (r.1 + 1, r.2)
    else (1, 1)

/-- `run_scripts` of `Clinics/migrate.py` (lines 26-37): run each script in
order and `break` on the first non-zero exit code.  Returns the number of
scripts started. -/
def run_scripts : List Bool → Nat
  | [] => 0
  | ok :: rest => if ok then run_scripts rest + 1 else 1

/-- The `__main__` block of `Clinics/migrate.py` (lines 40-48): an empty
script list exits 0 early; otherwise `run_scripts` runs and the program falls
off the end, so the process exit code is 0 no matter what happened.  Returns
`(scripts started, process exit code)`. -/
def clinics_migrate_main (scripts : List Bool) : Nat × Nat :=
  if scripts.isEmpty then (0, 0)
  else (run_scripts scripts, 0)

/-! ## Users/1_tbl_users__Users_.py -/

/-- One row of the MySQL `tbl_users` query (lines 51-56). -/
structure MysqlUser where
  user_id : Option Int
  title : Option String
  fname : Option String
  lname : Option String
  email : Option String
  contact : Option String
  contact_no : Option String
  status : Option Int
  add_time : Option Nat
  update_time : Option Nat
deriving DecidableEq, Repr

/-- Python truthiness of a nullable string (None and "" are falsy). -/
def pyTruthyStr : Option String → Bool
  | none => false
  | some s => !(s == "")

/-- Python `x or default` for a nullable string. -/
def pyOrStr (o : Option String) (dflt : String) : String :=
  match o with
  | none => dflt
  | some s => if s == "" then dflt else s

def DEFAULT_USER_TYPE : String := "CLINIC_USERS"

/-- The 12-tuple appended by `transform_users` (lines 98-111). -/
structure TransformedUser where
  sub : String
  userType : String
  email : String
  nameTitle : Option String
  firstName : String
  lastName : String
  status : Bool
  isDeleted : Bool
  createdAt : Nat
  updatedAt : Nat
  mobile : String
  oldUserId : Option Int
deriving DecidableEq, Repr

/-- The record appended to `invalid_users` (lines 81-86). -/
structure InvalidUser where
  old_user_id : Option Int
  email : Option String
  first_name : String
  reason : String
deriving DecidableEq, Repr

/-- The loop body of `transform_users` (lines 74-113).  `uuidGen k` stands for
the k-th call of `uuid.uuid4()`; `now` stands for `datetime.now()`. -/
def transform_users_go (uuidGen : Nat → String) (now : Nat) :
    List MysqlUser → Nat → List TransformedUser × List InvalidUser
  | [], _ => ([], [])
  | user :: rest, k =>
    let email := user.email
    let first_name := pyOrStr user.fname "Unknown"
    let last_name := pyOrStr user.lname ""
    if pyTruthyStr email = false ∨ first_name = "" then
      let r := transform_users_go uuidGen now rest k
      (r.1, ⟨user.user_id, email, first_name, "Missing email or first name"⟩ :: r.2)
    else
      let t : TransformedUser :=
        { sub := uuidGen k
          userType := DEFAULT_USER_TYPE
          email := email.getD ""
          nameTitle := match user.title with
            | some s => if s = "" then none else some s
            | none => none
          firstName := first_name
          lastName := last_name
          status := match user.status with
            | some v => v != 0
            | none => false
          isDeleted := false
          createdAt := user.add_time.getD now
          updatedAt := user.update_time.getD now
          mobile := pyOrStr user.contact (pyOrStr user.contact_no "")
          oldUserId := user.user_id }
      let r := transform_users_go uuidGen now rest (k + 1)
      (t :: r.1, r.2)

/-- `transform_users(mysql_users)` (lines 67-122): returns the transformed
tuples and the invalid-user records. -/
def transform_users (uuidGen : Nat → String) (now : Nat) (mysql_users : List MysqlUser) :
    List TransformedUser × List InvalidUser :=
  transform_users_go uuidGen now mysql_users 0

/-! ## Users/1: `insert_postgres_users` (lines 124-195) -/

/-- One row of the destination "Users" table.  Only the columns the function
reads or writes are named; `otherColumns` stands for every remaining column. -/
structure PgUser where
  uId : Nat
  sub : String
  email : String
  firstName : String
  lastName : String
  olduserid : Option Int
  updatedAt : Nat
  otherColumns : String
deriving DecidableEq, Repr

/-- The SQL predicate `LOWER(TRIM(email)) = %s AND LOWER(TRIM("firstName")) =
%s AND LOWER(TRIM("lastName")) = %s` (lines 146-149 and 158-162). -/
def matchKey (email_lc first_name_lc last_name_lc : String) (r : PgUser) : Bool :=
  pyLower (pyStrip r.email) == email_lc && pyLower (pyStrip r.firstName) == first_name_lc &&
    pyLower (pyStrip r.lastName) == last_name_lc

/-- One iteration of the `insert_postgres_users` loop (lines 134-175): if a
user with the same trimmed, lower-cased email/firstName/lastName exists, every
such row gets its `olduserid` and `updatedAt` overwritten; otherwise nothing
happens ("No else: do nothing if user does not exist"). -/
def applyUserUpdate (now : Nat) (table : List PgUser) (u : TransformedUser) : List PgUser :=
  let email_lc := pyLower (pyStrip u.email)
  let first_name_lc := pyLower (pyStrip u.firstName)
  let last_name_lc := pyLower (pyStrip u.lastName)
  if table.any (matchKey email_lc first_name_lc last_name_lc) then
    table.map (fun r =>
      if matchKey email_lc first_name_lc last_name_lc r then
        { r with olduserid := u.oldUserId, updatedAt := now }
      else r)
  else table

/-- `insert_postgres_users(user_data_list)` (lines 124-195) applied to a
snapshot of the destination Users table. -/
def insert_postgres_users (now : Nat) (table : List PgUser)
    (user_data_list : List TransformedUser) : List PgUser :=
  user_data_list.foldl (applyUserUpdate now) table

/-- The columns of a Users row that `insert_postgres_users` never writes. -/
def SameNonMigrationColumns (r r' : PgUser) : Prop :=
  r'.uId = r.uId ∧ r'.sub = r.sub ∧ r'.email = r.email ∧ r'.firstName = r.firstName ∧
    r'.lastName = r.lastName ∧ r'.otherColumns = r.otherColumns

/-- Whether some input user of the batch matches a destination row. -/
def matchedBySome (us : List TransformedUser) (r : PgUser) : Bool :=
  us.any (fun u => matchKey (pyLower (pyStrip u.email)) (pyLower (pyStrip u.firstName))
    (pyLower (pyStrip u.lastName)) r)

/-- How `insert_postgres_users` may relate a destination row before the run
(`r`) to the same row after it (`r'`): the non-migration columns are
untouched, and the row either is wholly unchanged or was matched by some
input user of the batch, in which case only `olduserid` (from that user) and
`updatedAt` (to now) were written. -/
def UserRowEvolution (now : Nat) (us : List TransformedUser) (r r' : PgUser) : Prop :=
  SameNonMigrationColumns r r'
  ∧ (r' = r
    ∨ (matchedBySome us r = true ∧ r'.updatedAt = now
      ∧ ∃ u, u ∈ us ∧ r'.olduserid = u.oldUserId))

end Migration

namespace Migration

/-! ## Helper lemmas -/

theorem roundHalfEven_intCast (k : ℤ) : roundHalfEven (k : ℚ) = k := by
  unfold roundHalfEven
  simp

theorem roundHalfEven_ge_floor (q : ℚ) : ⌊q⌋ ≤ roundHalfEven q := by
  unfold roundHalfEven
  dsimp only
  split_ifs <;> omega

theorem roundHalfEven_le_floor_add_one (q : ℚ) : roundHalfEven q ≤ ⌊q⌋ + 1 := by
  unfold roundHalfEven
  dsimp only
  split_ifs <;> omega

theorem roundHalfEven_le_of_le {q : ℚ} {N : ℤ} (h : q ≤ (N : ℚ)) : roundHalfEven q ≤ N := by
  rcases lt_or_ge ⌊q⌋ N with hlt | hge
  · have := roundHalfEven_le_floor_add_one q
    omega
  · have h1 : (⌊q⌋ : ℚ) ≤ q := Int.floor_le q
    have h2 : (N : ℚ) ≤ (⌊q⌋ : ℚ) := by exact_mod_cast hge
    have hq : q = (N : ℚ) := le_antisymm h (le_trans h2 h1)
    rw [hq, roundHalfEven_intCast]

theorem roundHalfEven_ge_of_ge {q : ℚ} {N : ℤ} (h : (N : ℚ) ≤ q) : N ≤ roundHalfEven q := by
  have h1 : N ≤ ⌊q⌋ := Int.le_floor.mpr h
  have h2 := roundHalfEven_ge_floor q
  omega

theorem roundTo2_of_cent (k : ℤ) : roundTo2 ((k : ℚ) / 100) = (k : ℚ) / 100 := by
  unfold roundTo2
  rw [div_mul_cancel₀ _ (by norm_num : (100 : ℚ) ≠ 0), roundHalfEven_intCast]

theorem roundTo2_idem (q : ℚ) : roundTo2 (roundTo2 q) = roundTo2 q := by
  unfold roundTo2
  rw [div_mul_cancel₀ _ (by norm_num : (100 : ℚ) ≠ 0), roundHalfEven_intCast]

theorem roundTo2_le_max {q : ℚ} (h : q ≤ MAX_AMOUNT) : roundTo2 q ≤ MAX_AMOUNT := by
  have h100 : q * 100 ≤ ((9999999999 : ℤ) : ℚ) := by
    unfold MAX_AMOUNT at h
    push_cast
    nlinarith
  have hle := roundHalfEven_le_of_le h100
  unfold roundTo2 MAX_AMOUNT
  rw [div_le_iff₀ (by norm_num : (0 : ℚ) < 100)]
  calc (roundHalfEven (q * 100) : ℚ) ≤ ((9999999999 : ℤ) : ℚ) := by exact_mod_cast hle
    _ = 99999999.99 * 100 := by norm_num

theorem roundTo2_ge_min {q : ℚ} (h : MIN_AMOUNT ≤ q) : MIN_AMOUNT ≤ roundTo2 q := by
  have h100 : ((-9999999999 : ℤ) : ℚ) ≤ q * 100 := by
    unfold MIN_AMOUNT at h
    push_cast
    nlinarith
  have hge := roundHalfEven_ge_of_ge h100
  unfold roundTo2 MIN_AMOUNT
  rw [le_div_iff₀ (by norm_num : (0 : ℚ) < 100)]
  calc (-99999999.99 : ℚ) * 100 = ((-9999999999 : ℤ) : ℚ) := by norm_num
    _ ≤ (roundHalfEven (q * 100) : ℚ) := by exact_mod_cast hge

theorem validate_in_range_eq {a : ℚ} (hlo : MIN_AMOUNT ≤ a) (hhi : a ≤ MAX_AMOUNT) :
    validate_and_sanitize_amount (some a) = ⟨some (roundTo2 a), true, false⟩ := by
  simp only [validate_and_sanitize_amount]
  rw [if_neg (not_lt.mpr hhi), if_neg (not_lt.mpr hlo)]

theorem validate_above_max_eq {a : ℚ} (h : MAX_AMOUNT < a) :
    validate_and_sanitize_amount (some a) = ⟨some MAX_AMOUNT, true, true⟩ := by
  simp only [validate_and_sanitize_amount]
  rw [if_pos h]

theorem validate_below_min_eq {a : ℚ} (h : a < MIN_AMOUNT) :
    validate_and_sanitize_amount (some a) = ⟨some MIN_AMOUNT, true, true⟩ := by
  simp only [validate_and_sanitize_amount]
  rw [if_neg, if_pos h]
  exact not_lt.mpr (h.le.trans (by norm_num [MIN_AMOUNT, MAX_AMOUNT]))

theorem roundTo2_max_amount : roundTo2 MAX_AMOUNT = MAX_AMOUNT := by
  have h : MAX_AMOUNT = ((9999999999 : ℤ) : ℚ) / 100 := by norm_num [MAX_AMOUNT]
  rw [h, roundTo2_of_cent]

theorem roundTo2_min_amount : roundTo2 MIN_AMOUNT = MIN_AMOUNT := by
  have h : MIN_AMOUNT = ((-9999999999 : ℤ) : ℚ) / 100 := by norm_num [MIN_AMOUNT]
  rw [h, roundTo2_of_cent]

/-! ## Claim theorems -/

/-- C1: `map_status_value` is total and deterministic (a total function on the
four flag columns), agrees everywhere with the precedence table
archived > completed > submitted > draft with draft-only as its first (base)
rule, maps (1,1,1,0) to COMPLETED and (0,0,0,1) to ARCHIVED, lets archived=1
win regardless of the other flags, and maps all-flags-clear to the lowest
stage. -/
theorem c1_status_precedence :
    (∀ d s c a : Option Int, map_status_value d s c a = statusByPrecedence d s c a)
    ∧ map_status_value (some 1) (some 1) (some 1) (some 0) = "COMPLETED"
    ∧ map_status_value (some 0) (some 0) (some 0) (some 1) = "ARCHIVED"
    ∧ (∀ d s c : Option Int, map_status_value d s c (some 1) = "ARCHIVED")
    ∧ map_status_value (some 0) (some 0) (some 0) (some 0) = "DRAFT" := by
  refine ⟨?_, by decide, by decide, ?_, by decide⟩
  · intro d s c a
    by_cases hd : d = some 1 <;> by_cases hs : s = some 1 <;>
      by_cases hc : c = some 1 <;> by_cases ha : a = some 1 <;>
      simp [map_status_value, statusByPrecedence, coerceFlag, hd, hs, hc, ha]
  · intro d s c
    by_cases hd : d = some 1 <;> by_cases hs : s = some 1 <;>
      by_cases hc : c = some 1 <;>
      simp [map_status_value, statusByPrecedence, coerceFlag, hd, hs, hc]

/-- C3 counterexample: 0.125 lies inside the representable range
[-99999999.99, 99999999.99], yet `validate_and_sanitize_amount` does not pass
it through unchanged — it rounds it to 0.12 (= 3/25), so the round-trip
identity claimed for all in-range inputs fails. -/
theorem c3_counterexample :
    validate_and_sanitize_amount (some (1/8)) = ⟨some (3/25), true, false⟩
    ∧ (3/25 : ℚ) ≠ 1/8
    ∧ MIN_AMOUNT ≤ (1/8 : ℚ) ∧ (1/8 : ℚ) ≤ MAX_AMOUNT := by
  refine ⟨?_, by norm_num, by norm_num [MIN_AMOUNT], by norm_num [MAX_AMOUNT]⟩
  have h := validate_in_range_eq (a := 1/8) (by norm_num [MIN_AMOUNT]) (by norm_num [MAX_AMOUNT])
  have hr : roundTo2 (1/8 : ℚ) = 3/25 := by
    unfold roundTo2
    have h1 : (1/8 : ℚ) * 100 = 25/2 := by norm_num
    rw [h1]
    have h2 : roundHalfEven (25/2 : ℚ) = 12 := by
      unfold roundHalfEven
      dsimp only
      have hf : ⌊(25/2 : ℚ)⌋ = 12 := by norm_num
      rw [hf]
      norm_num
    rw [h2]
    norm_num
  rw [h, hr]

/-- C3 amended: clamping is idempotent on the sanitized value; an in-range
value exactly representable with two decimal places passes through unchanged;
any other in-range value is rounded (half-to-even) to two decimal places; and
out-of-range values are capped at the fixed maximum or minimum with a warning
instead of being rejected. -/
theorem c3_clamping_amended :
    (∀ a : Option ℚ,
      (validate_and_sanitize_amount ((validate_and_sanitize_amount a).sanitized)).sanitized
        = (validate_and_sanitize_amount a).sanitized)
    ∧ (∀ k : ℤ, MIN_AMOUNT ≤ (k : ℚ) / 100 → (k : ℚ) / 100 ≤ MAX_AMOUNT →
        validate_and_sanitize_amount (some ((k : ℚ) / 100)) = ⟨some ((k : ℚ) / 100), true, false⟩)
    ∧ (∀ a : ℚ, MIN_AMOUNT ≤ a → a ≤ MAX_AMOUNT →
        validate_and_sanitize_amount (some a) = ⟨some (roundTo2 a), true, false⟩)
    ∧ (∀ a : ℚ, MAX_AMOUNT < a →
        validate_and_sanitize_amount (some a) = ⟨some MAX_AMOUNT, true, true⟩)
    ∧ (∀ a : ℚ, a < MIN_AMOUNT →
        validate_and_sanitize_amount (some a) = ⟨some MIN_AMOUNT, true, true⟩) := by
  have hminmax : MIN_AMOUNT ≤ MAX_AMOUNT := by norm_num [MIN_AMOUNT, MAX_AMOUNT]
  refine ⟨?_, ?_, fun a hlo hhi => validate_in_range_eq hlo hhi,
    fun a h => validate_above_max_eq h, fun a h => validate_below_min_eq h⟩
  · intro a
    match a with
    | none => rfl
    | some a =>
      rcases lt_or_le MAX_AMOUNT a with h1 | h1
      · rw [validate_above_max_eq h1]
        have := validate_in_range_eq hminmax (le_refl MAX_AMOUNT)
        simp only [this, roundTo2_max_amount]
      · rcases lt_or_le a MIN_AMOUNT with h2 | h2
        · rw [validate_below_min_eq h2]
          have := validate_in_range_eq (le_refl MIN_AMOUNT) hminmax
          simp only [this, roundTo2_min_amount]
        · rw [validate_in_range_eq h2 h1]
          have := validate_in_range_eq (roundTo2_ge_min h2) (roundTo2_le_max h1)
          simp only [this, roundTo2_idem]
  · intro k hlo hhi
    rw [validate_in_range_eq hlo hhi, roundTo2_of_cent]

/-- C3 witness: the amended clamping facts at concrete inputs 2.37 (in range,
two decimals), 7.001 (in range, rounded), 10^9 (capped above) and -10^9
(capped below), via `c3_clamping_amended`. -/
theorem c3_clamping_amended_witness :
    validate_and_sanitize_amount (some ((237 : ℤ) / 100)) = ⟨some ((237 : ℤ) / 100), true, false⟩
    ∧ validate_and_sanitize_amount (some (7001/1000)) = ⟨some (roundTo2 (7001/1000)), true, false⟩
    ∧ validate_and_sanitize_amount (some 1000000000) = ⟨some MAX_AMOUNT, true, true⟩
    ∧ validate_and_sanitize_amount (some (-1000000000)) = ⟨some MIN_AMOUNT, true, true⟩ := by
  refine ⟨c3_clamping_amended.2.1 237 (by norm_num [MIN_AMOUNT]) (by norm_num [MAX_AMOUNT]),
    c3_clamping_amended.2.2.1 (7001/1000) (by norm_num [MIN_AMOUNT]) (by norm_num [MAX_AMOUNT]),
    c3_clamping_amended.2.2.2.1 1000000000 (by norm_num [MAX_AMOUNT]),
    c3_clamping_amended.2.2.2.2 (-1000000000) (by norm_num [MIN_AMOUNT])⟩

/-- C7 counterexample: the review-status mapper is not total with default
'SUBMITED' over all inputs — a NULL input is passed through as NULL, not
mapped to the designated default. -/
theorem c7_counterexample :
    map_review_status_value none = none
    ∧ map_review_status_value none ≠ some "SUBMITED" := by
  exact ⟨rfl, by decide⟩

/-- C7 amended: for every non-null input the review-status mapper normalizes
(string-cast and lower-case) and returns the designated default 'SUBMITED' on
a dictionary miss, and always returns some value (never raises); a NULL input
is passed through as NULL.  The gender mapper normalizes (lower-case, strip)
and returns the designated default 'OTHER' on a miss, and maps NULL and the
empty string to 'OTHER' as well; it never raises. -/
theorem c7_normalizer_defaults :
    (∀ s : String, review_status_mapping.lookup (pyLower s) = none →
      map_review_status_value (some s) = some "SUBMITED")
    ∧ (∀ s : String, (map_review_status_value (some s)).isSome = true)
    ∧ map_review_status_value none = none
    ∧ convert_gender none = "OTHER"
    ∧ convert_gender (some "") = "OTHER"
    ∧ (∀ g : String, g ≠ "" → gender_mapping.lookup (pyStrip (pyLower g)) = none →
      convert_gender (some g) = "OTHER") := by
  refine ⟨?_, ?_, rfl, rfl, rfl, ?_⟩
  · intro s h
    simp [map_review_status_value, h]
  · intro s
    simp [map_review_status_value]
  · intro g hg h
    simp [convert_gender, hg, h]

/-- C7 witness: the defaults fire at the concrete unrecognized value "zzz",
via `c7_normalizer_defaults`. -/
theorem c7_normalizer_defaults_witness :
    map_review_status_value (some "zzz") = some "SUBMITED"
    ∧ convert_gender (some "zzz") = "OTHER" := by
  exact ⟨c7_normalizer_defaults.1 "zzz" (by decide),
    c7_normalizer_defaults.2.2.2.2.2 "zzz" (by decide) (by decide)⟩

/-- C2 counterexample: a row whose doctor_id 5 is absent from tbl_users but
whose reffering_doctor "John  Smith" has a normalized-name hit (uId 42) in
the Users name index is nevertheless skipped with the counter bumped — the
code never consults the name fallback (nor the id chain) for rows failing
the doctor-validity precheck, refuting the unrestricted resolution ladder. -/
theorem c2_counterexample :
    process_case_row [] [] [("john smith", 42)] [] [] 0
      { cases_id := 3, voxel_cases_id := none, doctor_id := some 5,
        next_appointment_date := none, scan_date := none,
        services_total_cost := none, status := some 1, draft_status := some 1,
        submitted_status := none, completed_status := none,
        archived_status := none, assigned_radiologist_id := none,
        revenue_amount := none, review_status := none,
        case_result_summary := none, internal_comments := none,
        add_time := none, update_time := none, submitted_date := none,
        completed_date := none, added_by := none,
        reffering_doctor := some "John  Smith" } = (none, 1)
    ∧ ([("john smith", 42)] : List (String × Int)).lookup
        (normalize_name "John  Smith") = some 42 := by
  exact ⟨rfl, by decide⟩

/-- C2 amended: a Cases row whose doctor_id is NULL or absent from tbl_users
is skipped outright — zero destination rows, `skipped_invalid_doctor_count`
+1 — without consulting either mapping.  For a row that passes that precheck,
the doctor identifier is resolved in priority order: (1) an exact hit in the
olduserid-to-uId mapping wins and produces exactly one destination row keyed
by that uId; (2) on a miss, a normalized-name hit for `reffering_doctor` in
the Users name index produces exactly one destination row keyed by the
fallback uId; (3) when both miss (or `reffering_doctor` is absent/empty) the
row produces zero destination rows and the same counter increments by
exactly one — no exception escapes the row. -/
theorem c2_doctor_fallback_ladder
    (valid_doctor_ids : List Int) (olduserid_to_uid : List (Int × Int))
    (name_to_uid : List (String × Int))
    (case_invoice_mapping clinic_location_mapping : List (Int × Int))
    (now : Nat) (row : TblCasesRow) :
    (optMem row.doctor_id valid_doctor_ids = false →
      process_case_row valid_doctor_ids olduserid_to_uid name_to_uid
        case_invoice_mapping clinic_location_mapping now row = (none, 1))
    ∧ (optMem row.doctor_id valid_doctor_ids = true →
      (∀ uid, lookupOpt olduserid_to_uid row.doctor_id = some uid →
        ∃ v, process_case_row valid_doctor_ids olduserid_to_uid name_to_uid
            case_invoice_mapping clinic_location_mapping now row = (some v, 0)
          ∧ v.doctorUserId = some uid ∧ v.createdByUserId = some uid)
      ∧ (lookupOpt olduserid_to_uid row.doctor_id = none →
        (∀ rd uid, row.reffering_doctor = some rd → rd ≠ "" →
          name_to_uid.lookup (normalize_name rd) = some uid →
          ∃ v, process_case_row valid_doctor_ids olduserid_to_uid name_to_uid
              case_invoice_mapping clinic_location_mapping now row = (some v, 0)
            ∧ v.doctorUserId = some uid ∧ v.createdByUserId = some uid)
        ∧ ((∀ rd, row.reffering_doctor = some rd →
            rd = "" ∨ name_to_uid.lookup (normalize_name rd) = none) →
          process_case_row valid_doctor_ids olduserid_to_uid name_to_uid
            case_invoice_mapping clinic_location_mapping now row = (none, 1)))) := by
  constructor
  · intro hinvalid
    simp [process_case_row, hinvalid]
  · intro hvalid
    constructor
    · intro uid h
      refine ⟨build_case_values olduserid_to_uid case_invoice_mapping
        clinic_location_mapping now row uid, ?_, rfl, rfl⟩
      simp [process_case_row, hvalid, h]
    · intro h
      constructor
      · intro rd uid hrd hne hlk
        refine ⟨build_case_values olduserid_to_uid case_invoice_mapping
          clinic_location_mapping now row uid, ?_, rfl, rfl⟩
        simp [process_case_row, hvalid, h, hrd, hne, hlk]
      · intro hmiss
        cases hrd : row.reffering_doctor with
        | none => simp [process_case_row, hvalid, h, hrd]
        | some rd =>
          rcases hmiss rd hrd with he | hlk
          · simp [process_case_row, hvalid, h, hrd, he]
          · by_cases he : rd = ""
            · simp [process_case_row, hvalid, h, hrd, he]
            · simp [process_case_row, hvalid, h, hrd, he, hlk]

/-- C2 witness: on a concrete row whose doctor_id 7 is valid and present in
the olduserid map, the id-chain branch of `c2_doctor_fallback_ladder` fires
and one destination row with uId 100 is produced; a sibling row with
doctor_id 8, absent from tbl_users, is skipped via the precheck branch. -/
theorem c2_doctor_fallback_ladder_witness :
    (∃ v, process_case_row [7] [(7, 100)] [] [] [] 0
        { cases_id := 1, voxel_cases_id := none, doctor_id := some 7,
          next_appointment_date := none, scan_date := none,
          services_total_cost := none, status := some 1, draft_status := some 1,
          submitted_status := none, completed_status := none,
          archived_status := none, assigned_radiologist_id := none,
          revenue_amount := none, review_status := none,
          case_result_summary := none, internal_comments := none,
          add_time := none, update_time := none, submitted_date := none,
          completed_date := none, added_by := none, reffering_doctor := none }
      = (some v, 0) ∧ v.doctorUserId = some 100 ∧ v.createdByUserId = some 100)
    ∧ process_case_row [7] [(7, 100)] [] [] [] 0
        { cases_id := 4, voxel_cases_id := none, doctor_id := some 8,
          next_appointment_date := none, scan_date := none,
          services_total_cost := none, status := some 1, draft_status := some 1,
          submitted_status := none, completed_status := none,
          archived_status := none, assigned_radiologist_id := none,
          revenue_amount := none, review_status := none,
          case_result_summary := none, internal_comments := none,
          add_time := none, update_time := none, submitted_date := none,
          completed_date := none, added_by := none, reffering_doctor := none }
      = (none, 1) := by
  refine ⟨(c2_doctor_fallback_ladder [7] [(7, 100)] [] [] [] 0 _).2 (by decide) |>.1 100 rfl, ?_⟩
  exact (c2_doctor_fallback_ladder [7] [(7, 100)] [] [] [] 0 _).1 (by decide)

/-- C10: every destination row `process_case_row` actually produces carries a
strictly positive totalServiceCost, equal to the `toTotalServiceCost`
transform of the source `services_total_cost`; that transform replaces NULL
and non-positive costs by the sentinel minimum 1.00 and carries positive
costs over unchanged. -/
theorem c10_total_service_cost_positive :
    (∀ (valid : List Int) (idMap : List (Int × Int)) (nameMap : List (String × Int))
      (invMap clinMap : List (Int × Int)) (now : Nat) (row : TblCasesRow)
      (v : CasesInsertValues),
      (process_case_row valid idMap nameMap invMap clinMap now row).1 = some v →
      0 < v.totalServiceCost
      ∧ v.totalServiceCost = toTotalServiceCost row.services_total_cost)
    ∧ toTotalServiceCost none = 1
    ∧ (∀ c : ℚ, c ≤ 0 → toTotalServiceCost (some c) = 1)
    ∧ (∀ c : ℚ, 0 < c → toTotalServiceCost (some c) = c) := by
  have hpos : ∀ x : Option ℚ, 0 < toTotalServiceCost x := by
    intro x
    match x with
    | none => norm_num [toTotalServiceCost]
    | some c =>
      simp only [toTotalServiceCost]
      split_ifs with hc
      · norm_num
      · exact lt_of_not_le hc
  refine ⟨?_, rfl, ?_, ?_⟩
  · intro valid idMap nameMap invMap clinMap now row v h
    suffices hv : v.totalServiceCost = toTotalServiceCost row.services_total_cost by
      exact ⟨hv ▸ hpos row.services_total_cost, hv⟩
    unfold process_case_row at h
    by_cases hvd : optMem row.doctor_id valid = false
    · simp [hvd] at h
    · simp only [hvd, if_neg, Bool.not_eq_false] at h
      rcases hl : lookupOpt idMap row.doctor_id with _ | uid
      · simp only [hl] at h
        rcases hrd : row.reffering_doctor with _ | rd
        · simp only [hrd] at h
          simp at h
        · simp only [hrd] at h
          by_cases he : rd = ""
          · simp [he] at h
          · simp only [if_neg he] at h
            rcases hlk : nameMap.lookup (normalize_name rd) with _ | fuid
            · simp only [hlk] at h
              simp at h
            · simp only [hlk] at h
              simp at h
              subst h
              rfl
      · simp only [hl] at h
        simp at h
        subst h
        rfl
  · intro c hc
    simp [toTotalServiceCost, hc]
  · intro c hc
    simp [toTotalServiceCost, not_le.mpr hc]

/-- C10 witness: a concrete row with NULL services_total_cost is inserted
with totalServiceCost 1.00 > 0, via `c10_total_service_cost_positive`. -/
theorem c10_total_service_cost_positive_witness :
    ∃ v, (process_case_row [9] [(9, 200)] [] [] [] 0
        { cases_id := 2, voxel_cases_id := none, doctor_id := some 9,
          next_appointment_date := none, scan_date := none,
          services_total_cost := none, status := some 2, draft_status := none,
          submitted_status := none, completed_status := none,
          archived_status := some 1, assigned_radiologist_id := none,
          revenue_amount := none, review_status := none,
          case_result_summary := none, internal_comments := none,
          add_time := none, update_time := none, submitted_date := none,
          completed_date := none, added_by := none, reffering_doctor := none }).1
      = some v ∧ 0 < v.totalServiceCost := by
  have h : (process_case_row [9] [(9, 200)] [] [] [] 0
      { cases_id := 2, voxel_cases_id := none, doctor_id := some 9,
        next_appointment_date := none, scan_date := none,
        services_total_cost := none, status := some 2, draft_status := none,
        submitted_status := none, completed_status := none,
        archived_status := some 1, assigned_radiologist_id := none,
        revenue_amount := none, review_status := none,
        case_result_summary := none, internal_comments := none,
        add_time := none, update_time := none, submitted_date := none,
        completed_date := none, added_by := none, reffering_doctor := none }).1
      = some (build_case_values [(9, 200)] [] [] 0
        { cases_id := 2, voxel_cases_id := none, doctor_id := some 9,
          next_appointment_date := none, scan_date := none,
          services_total_cost := none, status := some 2, draft_status := none,
          submitted_status := none, completed_status := none,
          archived_status := some 1, assigned_radiologist_id := none,
          revenue_amount := none, review_status := none,
          case_result_summary := none, internal_comments := none,
          add_time := none, update_time := none, submitted_date := none,
          completed_date := none, added_by := none, reffering_doctor := none } 200) := by
    rfl
  exact ⟨_, h, (c10_total_service_cost_positive.1 [9] [(9, 200)] [] [] [] 0 _ _ h).1⟩

/-- C4: a source row whose parent invoice id is missing from the destination
Invoices table inserts nothing, bumps `foreign_key_violations` by exactly one,
leaves the success counter alone, and the loop goes on with the remaining
rows. -/
theorem c4_fk_violation_skips_row (s : Inv4State) (r : Record4)
    (h : s.invoices.contains r.client_invoice_id = false) :
    (inv4Step s r).inserted = s.inserted
    ∧ (inv4Step s r).fkViolations = s.fkViolations + 1
    ∧ (inv4Step s r).successful = s.successful
    ∧ (∀ rest : List Record4,
        List.foldl inv4Step s (r :: rest) = List.foldl inv4Step (inv4Step s r) rest) := by
  have hmem : r.client_invoice_id ∉ s.invoices := by simpa using h
  have hstep : inv4Step s r = { s with fkViolations := s.fkViolations + 1 } := by
    unfold inv4Step insert_invoice_case_service validate_foreign_keys
    simp [hmem]
  exact ⟨by rw [hstep], by rw [hstep], by rw [hstep],
    fun rest => by rw [List.foldl_cons]⟩

/-- C4 witness: invoice id 5 is absent from the destination Invoices table
[1], so the concrete record is skipped and the counter reads 1, via
`c4_fk_violation_skips_row`. -/
theorem c4_fk_violation_skips_row_witness :
    (inv4Step (inv4InitState [1] [2]) ⟨5, 2, none, none, none, false⟩).inserted = []
    ∧ (inv4Step (inv4InitState [1] [2]) ⟨5, 2, none, none, none, false⟩).fkViolations = 1 := by
  have h := c4_fk_violation_skips_row (inv4InitState [1] [2]) ⟨5, 2, none, none, none, false⟩
    (by decide)
  exact ⟨h.1, h.2.1⟩

theorem pyOrZero_none : pyOrZero none = 0 := rfl

theorem validate_none_eq : validate_and_sanitize_amount none = ⟨none, true, false⟩ := rfl

theorem roundTo2_zero : roundTo2 0 = 0 := by
  have h0 : (0 : ℚ) = ((0 : ℤ) : ℚ) / 100 := by norm_num
  rw [h0, roundTo2_of_cent]

theorem validate_zero_eq : validate_and_sanitize_amount (some 0) = ⟨some 0, true, false⟩ := by
  have h := validate_in_range_eq (a := 0) (by norm_num [MIN_AMOUNT]) (by norm_num [MAX_AMOUNT])
  rw [h, roundTo2_zero]

theorem insert_good_record (invoices cases : List Int)
    (h1 : (1 : Int) ∈ invoices) (h2 : (1 : Int) ∈ cases) :
    insert_invoice_case_service invoices cases ⟨1, 1, none, none, none, false⟩
      = .ok ⟨1, 1, none, 0, none, false⟩ := by
  unfold insert_invoice_case_service validate_foreign_keys
  simp [h1, h2, validate_none_eq, pyOrZero_none, validate_zero_eq]

theorem inv4Step_good (s : Inv4State) (h1 : s.invoices = [1]) (h2 : s.casesTbl = [1]) :
    inv4Step s ⟨1, 1, none, none, none, false⟩
      = { s with inserted := s.inserted ++ [⟨1, 1, none, 0, none, false⟩],
                 successful := s.successful + 1 } := by
  unfold inv4Step
  rw [insert_good_record s.invoices s.casesTbl (by rw [h1]; exact List.mem_singleton.mpr rfl)
    (by rw [h2]; exact List.mem_singleton.mpr rfl)]

theorem inv4_good_run (n : Nat) : ∀ s : Inv4State, s.invoices = [1] → s.casesTbl = [1] →
    (List.foldl inv4Step s
        (List.replicate n ⟨1, 1, none, none, none, false⟩)).successful = s.successful + n
    ∧ (List.foldl inv4Step s
        (List.replicate n ⟨1, 1, none, none, none, false⟩)).commitsInLoop = s.commitsInLoop := by
  induction n with
  | zero => intro s h1 h2; simp
  | succ n ih =>
    intro s h1 h2
    rw [List.replicate_succ, List.foldl_cons, inv4Step_good s h1 h2]
    have h := ih { s with inserted := s.inserted ++ [⟨1, 1, none, 0, none, false⟩],
                          successful := s.successful + 1 } h1 h2
    refine ⟨?_, ?_⟩
    · rw [h.1]
      dsimp only
      omega
    · rw [h.2]

/-- C5 counterexample: the InvoiceCaseServices row loop (Invoices/4) does not
checkpoint every 100 rows — over a run of 100 rows that all insert
successfully it performs zero commits inside the loop, so an interruption
before the single post-loop commit would lose all 100 rows. -/
theorem c5_counterexample :
    (migrate_data_inv4 [1] [1]
      (List.replicate 100 ⟨1, 1, none, none, none, false⟩)).successful = 100
    ∧ (migrate_data_inv4 [1] [1]
      (List.replicate 100 ⟨1, 1, none, none, none, false⟩)).commitsInLoop = 0 := by
  have h := inv4_good_run 100 (inv4InitState [1] [1]) rfl rfl
  unfold migrate_data_inv4
  dsimp only
  exact ⟨by rw [h.1]; rfl, by rw [h.2]; rfl⟩

theorem casesLoopStep_committed_extends (s : BatchLoopState) (r : Nat × RowFate) :
    ∃ t, (casesLoopStep s r).committed = s.committed ++ t := by
  unfold casesLoopStep
  match r with
  | (id, .skip) => exact ⟨[], by simp⟩
  | (id, .fail) => exact ⟨[], by simp⟩
  | (id, .ok) =>
    dsimp only
    split_ifs with h
    · exact ⟨s.pending ++ [id], rfl⟩
    · exact ⟨[], by simp⟩

theorem casesLoop_committed_monotone (rows : List (Nat × RowFate)) :
    ∀ s : BatchLoopState, ∃ t, (List.foldl casesLoopStep s rows).committed = s.committed ++ t := by
  induction rows with
  | nil => intro s; exact ⟨[], by simp⟩
  | cons r rest ih =>
    intro s
    rw [List.foldl_cons]
    obtain ⟨t1, h1⟩ := casesLoopStep_committed_extends s r
    obtain ⟨t2, h2⟩ := ih (casesLoopStep s r)
    exact ⟨t1 ++ t2, by rw [h2, h1, List.append_assoc]⟩

theorem inv5LoopStep_committed_extends (s : BatchLoopState) (r : Nat × RowFate) :
    ∃ t, (inv5LoopStep s r).committed = s.committed ++ t := by
  unfold inv5LoopStep
  match r with
  | (id, .skip) => exact ⟨[], by simp⟩
  | (id, .fail) => exact ⟨[], by simp⟩
  | (id, .ok) =>
    dsimp only
    split_ifs with h
    · exact ⟨s.pending ++ [id], rfl⟩
    · exact ⟨[], by simp⟩

theorem inv5Loop_committed_monotone (rows : List (Nat × RowFate)) :
    ∀ s : BatchLoopState, ∃ t, (List.foldl inv5LoopStep s rows).committed = s.committed ++ t := by
  induction rows with
  | nil => intro s; exact ⟨[], by simp⟩
  | cons r rest ih =>
    intro s
    rw [List.foldl_cons]
    obtain ⟨t1, h1⟩ := inv5LoopStep_committed_extends s r
    obtain ⟨t2, h2⟩ := ih (inv5LoopStep s r)
    exact ⟨t1 ++ t2, by rw [h2, h1, List.append_assoc]⟩

theorem inv4Step_commits_const (s : Inv4State) (r : Record4) :
    (inv4Step s r).commitsInLoop = s.commitsInLoop := by
  unfold inv4Step
  cases hres : insert_invoice_case_service s.invoices s.casesTbl r with
  | ok v => rfl
  | error e => cases e <;> rfl

theorem inv4_commits_const (rows : List Record4) :
    ∀ s : Inv4State, (List.foldl inv4Step s rows).commitsInLoop = s.commitsInLoop := by
  induction rows with
  | nil => intro s; rfl
  | cons r rest ih =>
    intro s
    rw [List.foldl_cons, ih (inv4Step s r), inv4Step_commits_const]

/-- C5 amended: the Cases/1 and Invoices/5 row loops attempt inserts
individually, roll the open transaction back on a per-row failure and
continue (committed batches are never erased: the committed list only ever
grows across the rest of the run), and commit exactly when the running
success count reaches a multiple of the fixed batch size 100.  The
Invoices/4 row loop also attempts inserts individually and continues past
per-row errors, but performs no commit at all inside the loop (it commits
once after the loop) and no per-row rollback. -/
theorem c5_batching_amended :
    (∀ (s : BatchLoopState) (id : Nat),
      (casesLoopStep s (id, RowFate.fail)).committed = s.committed
      ∧ (casesLoopStep s (id, RowFate.fail)).errors = s.errors + 1
      ∧ (casesLoopStep s (id, RowFate.fail)).pending = []
      ∧ (casesLoopStep s (id, RowFate.ok)).commitsInLoop
          = s.commitsInLoop + (if (s.migrated + 1) % 100 = 0 then 1 else 0)
      ∧ (inv5LoopStep s (id, RowFate.fail)).committed = s.committed
      ∧ (inv5LoopStep s (id, RowFate.fail)).errors = s.errors + 1
      ∧ (inv5LoopStep s (id, RowFate.fail)).pending = []
      ∧ (inv5LoopStep s (id, RowFate.ok)).commitsInLoop
          = s.commitsInLoop + (if (s.migrated + 1) % 100 = 0 then 1 else 0))
    ∧ (∀ (rows : List (Nat × RowFate)) (s : BatchLoopState),
        ∃ t, (List.foldl casesLoopStep s rows).committed = s.committed ++ t)
    ∧ (∀ (rows : List (Nat × RowFate)) (s : BatchLoopState),
        ∃ t, (List.foldl inv5LoopStep s rows).committed = s.committed ++ t)
    ∧ (∀ (rows : List Record4) (s : Inv4State),
        (List.foldl inv4Step s rows).commitsInLoop = s.commitsInLoop) := by
  refine ⟨?_, fun rows s => casesLoop_committed_monotone rows s,
    fun rows s => inv5Loop_committed_monotone rows s,
    fun rows s => inv4_commits_const rows s⟩
  intro s id
  refine ⟨rfl, rfl, rfl, ?_, rfl, rfl, rfl, ?_⟩
  · unfold casesLoopStep
    dsimp only
    split_ifs with h <;> simp
  · unfold inv5LoopStep
    dsimp only
    split_ifs with h <;> simp

/-- C6 counterexample: `Clinics/migrate.py` runs a single failing script,
halts, and still exits with code 0 — it does not surface a non-zero exit
code after a failed step. -/
theorem c6_counterexample : clinics_migrate_main [false] = (1, 0) := rfl

/-- C6 amended: both orchestrators run their scripts in the given order and
halt at the first failure — the number of scripts started is exactly the run
of leading successes plus the one failed script, so no downstream script ever
starts after a failure.  `migrate_all.py` exits 1 on the first failure and 0
only when every script succeeded, but `Clinics/migrate.py` always exits 0,
even when a script failed. -/
theorem c6_orchestrator_amended :
    (∀ scripts : List Bool,
      migrate_all_main scripts
        = ((scripts.takeWhile (fun b => b)).length
            + (if scripts.all (fun b => b) then 0 else 1),
          if scripts.all (fun b => b) then 0 else 1))
    ∧ (∀ scripts : List Bool,
      run_scripts scripts
        = (scripts.takeWhile (fun b => b)).length
            + (if scripts.all (fun b => b) then 0 else 1))
    ∧ (∀ scripts : List Bool, (clinics_migrate_main scripts).2 = 0) := by
  refine ⟨?_, ?_, ?_⟩
  · intro scripts
    induction scripts with
    | nil => rfl
    | cons ok rest ih =>
      cases ok
      · simp [migrate_all_main]
      · simp only [migrate_all_main, ih, List.takeWhile_cons, List.all_cons]
        simp
        omega
  · intro scripts
    induction scripts with
    | nil => rfl
    | cons ok rest ih =>
      cases ok
      · simp [run_scripts]
      · simp only [run_scripts, ih, List.takeWhile_cons, List.all_cons]
        simp
        omega
  · intro scripts
    unfold clinics_migrate_main
    split_ifs <;> rfl

theorem pyOrStr_unknown_ne_empty (o : Option String) : pyOrStr o "Unknown" ≠ "" := by
  match o with
  | none => decide
  | some s =>
    simp only [pyOrStr]
    split_ifs with h
    · decide
    · intro hc
      rw [hc] at h
      simp at h

theorem length_filter_bool_partition {α : Type} (p : α → Bool) (l : List α) :
    (l.filter p).length + (l.filter (fun a => !(p a))).length = l.length := by
  induction l with
  | nil => rfl
  | cons a l ih => cases h : p a <;> simp [List.filter_cons, h] <;> omega

theorem transform_users_go_lengths (uuidGen : Nat → String) (now : Nat)
    (users : List MysqlUser) :
    ∀ k : Nat,
      (transform_users_go uuidGen now users k).2.length
          = (users.filter (fun u => !pyTruthyStr u.email)).length
      ∧ (transform_users_go uuidGen now users k).1.length
          = (users.filter (fun u => pyTruthyStr u.email)).length := by
  induction users with
  | nil => intro k; exact ⟨rfl, rfl⟩
  | cons u rest ih =>
    intro k
    cases he : pyTruthyStr u.email with
    | false =>
      simp [transform_users_go, List.filter_cons, he, (ih k).1, (ih k).2]
    | true =>
      simp [transform_users_go, List.filter_cons, he, (ih k).1, (ih (k + 1)).1,
        (ih k).2, (ih (k + 1)).2, pyOrStr_unknown_ne_empty u.fname]

/-- C8 counterexample: a legacy user row with a missing first name (fname
NULL) but a valid email is not excluded by `transform_users` — it yields one
transformed tuple and zero invalid records, contradicting "excluded exactly
when the email or the first name is missing or empty". -/
theorem c8_counterexample :
    (transform_users (fun _ => "u") 7
      [{ user_id := some 5, title := none, fname := none, lname := some "Doe",
         email := some "a@b.c", contact := none, contact_no := none,
         status := some 1, add_time := none, update_time := none }]).1.length = 1
    ∧ (transform_users (fun _ => "u") 7
      [{ user_id := some 5, title := none, fname := none, lname := some "Doe",
         email := some "a@b.c", contact := none, contact_no := none,
         status := some 1, add_time := none, update_time := none }]).2.length = 0 := by
  exact ⟨rfl, rfl⟩

/-- C8 amended: a legacy user row is excluded from the output and counted
invalid exactly when its email is missing or empty; a missing or empty first
name is replaced by the default "Unknown" and never excludes the row; every
row with a non-empty email produces exactly one transformed tuple, and every
row produces either one tuple or one invalid record. -/
theorem c8_transform_required_fields :
    ∀ (uuidGen : Nat → String) (now : Nat) (users : List MysqlUser),
      (transform_users uuidGen now users).2.length
          = (users.filter (fun u => !pyTruthyStr u.email)).length
      ∧ (transform_users uuidGen now users).1.length
          = (users.filter (fun u => pyTruthyStr u.email)).length
      ∧ (transform_users uuidGen now users).1.length
          + (transform_users uuidGen now users).2.length = users.length := by
  intro uuidGen now users
  have h := transform_users_go_lengths uuidGen now users 0
  refine ⟨h.1, h.2, ?_⟩
  unfold transform_users
  rw [h.1, h.2]
  exact length_filter_bool_partition (fun u => pyTruthyStr u.email) users

theorem sameCols_refl (r : PgUser) : SameNonMigrationColumns r r :=
  ⟨rfl, rfl, rfl, rfl, rfl, rfl⟩

theorem sameCols_trans {r m r' : PgUser} (h1 : SameNonMigrationColumns r m)
    (h2 : SameNonMigrationColumns m r') : SameNonMigrationColumns r r' := by
  obtain ⟨a1, b1, c1, d1, e1, f1⟩ := h1
  obtain ⟨a2, b2, c2, d2, e2, f2⟩ := h2
  exact ⟨a2.trans a1, b2.trans b1, c2.trans c1, d2.trans d1, e2.trans e1, f2.trans f1⟩

theorem matchKey_congr (e f l : String) {r m : PgUser} (h : SameNonMigrationColumns r m) :
    matchKey e f l m = matchKey e f l r := by
  obtain ⟨-, -, hc, hd, he, -⟩ := h
  unfold matchKey
  rw [hc, hd, he]

theorem matchedBySome_congr (us : List TransformedUser) {r m : PgUser}
    (h : SameNonMigrationColumns r m) : matchedBySome us m = matchedBySome us r := by
  unfold matchedBySome
  have hfun : (fun u : TransformedUser => matchKey (pyLower (pyStrip u.email))
        (pyLower (pyStrip u.firstName)) (pyLower (pyStrip u.lastName)) m)
      = fun u : TransformedUser => matchKey (pyLower (pyStrip u.email))
        (pyLower (pyStrip u.firstName)) (pyLower (pyStrip u.lastName)) r :=
    funext fun u => matchKey_congr _ _ _ h
  rw [hfun]

theorem applyUserUpdate_rel (now : Nat) (u : TransformedUser) (table : List PgUser) :
    List.Forall₂ (fun r r' => SameNonMigrationColumns r r'
      ∧ (r' = r ∨ (matchKey (pyLower (pyStrip u.email)) (pyLower (pyStrip u.firstName))
            (pyLower (pyStrip u.lastName)) r = true
          ∧ r' = { r with olduserid := u.oldUserId, updatedAt := now })))
      table (applyUserUpdate now table u) := by
  unfold applyUserUpdate
  dsimp only
  split_ifs with hany
  · rw [List.forall₂_map_right_iff, List.forall₂_same]
    intro r hr
    by_cases hm : matchKey (pyLower (pyStrip u.email)) (pyLower (pyStrip u.firstName))
        (pyLower (pyStrip u.lastName)) r = true
    · rw [if_pos hm]
      exact ⟨⟨rfl, rfl, rfl, rfl, rfl, rfl⟩, Or.inr ⟨hm, rfl⟩⟩
    · rw [if_neg hm]
      exact ⟨sameCols_refl r, Or.inl rfl⟩
  · rw [List.forall₂_same]
    intro r hr
    exact ⟨sameCols_refl r, Or.inl rfl⟩

theorem forall₂_trans_general {α : Type} {R S T : α → α → Prop}
    (h : ∀ a b c, R a b → S b c → T a c) :
    ∀ {l1 l2 l3 : List α}, List.Forall₂ R l1 l2 → List.Forall₂ S l2 l3 →
      List.Forall₂ T l1 l3 := by
  intro l1 l2 l3 h12
  induction h12 generalizing l3 with
  | nil =>
    intro h23
    cases h23
    exact List.Forall₂.nil
  | cons hab h12' ih =>
    intro h23
    cases h23 with
    | cons hbc h23' => exact List.Forall₂.cons (h _ _ _ hab hbc) (ih h23')

theorem insert_postgres_users_rel (now : Nat) :
    ∀ (us : List TransformedUser) (table : List PgUser),
      List.Forall₂ (UserRowEvolution now us) table (insert_postgres_users now table us) := by
  intro us
  induction us with
  | nil =>
    intro table
    exact List.forall₂_same.mpr (fun r hr => ⟨sameCols_refl r, Or.inl rfl⟩)
  | cons u us' ih =>
    intro table
    have hstep := applyUserUpdate_rel now u table
    have hrest := ih (applyUserUpdate now table u)
    have hT : ∀ r m r' : PgUser,
        (SameNonMigrationColumns r m
          ∧ (m = r ∨ (matchKey (pyLower (pyStrip u.email)) (pyLower (pyStrip u.firstName))
                (pyLower (pyStrip u.lastName)) r = true
              ∧ m = { r with olduserid := u.oldUserId, updatedAt := now }))) →
        UserRowEvolution now us' m r' →
        UserRowEvolution now (u :: us') r r' := by
      intro r m r' h1 h2
      obtain ⟨hs1, hd1⟩ := h1
      obtain ⟨hs2, hd2⟩ := h2
      refine ⟨sameCols_trans hs1 hs2, ?_⟩
      rcases hd2 with rfl | ⟨hm2, hupd2, u2, hu2, hold2⟩
      · rcases hd1 with rfl | ⟨hm1, hmEq⟩
        · exact Or.inl rfl
        · refine Or.inr ⟨?_, ?_, u, List.mem_cons_self u us', ?_⟩
          · simp [matchedBySome, hm1]
          · rw [hmEq]
          · rw [hmEq]
      · refine Or.inr ⟨?_, hupd2, u2, List.mem_cons_of_mem u hu2, hold2⟩
        have hmr : matchedBySome us' r = true := by
          rw [← matchedBySome_congr us' hs1]
          exact hm2
        simp only [matchedBySome, List.any_cons] at hmr ⊢
        rw [hmr]
        simp
    exact forall₂_trans_general hT hstep hrest

/-- C9: `insert_postgres_users` never inserts or deletes a destination Users
row — the table keeps its length and every original row corresponds
positionally to its evolved version; a row evolves only when some input user
of the batch matches it case-insensitively on trimmed email, first name and
last name, and then only its `olduserid` (from the matching input) and
`updatedAt` (to now) change; every other column of every row, and every
unmatched row entirely, is unchanged, and unmatched input users leave no
trace. -/
theorem c9_users_update_frame :
    ∀ (now : Nat) (table : List PgUser) (us : List TransformedUser),
      (insert_postgres_users now table us).length = table.length
      ∧ List.Forall₂ (UserRowEvolution now us) table (insert_postgres_users now table us) := by
  intro now table us
  have h := insert_postgres_users_rel now us table
  exact ⟨(List.Forall₂.length_eq h).symm, h⟩

end Migration
